import Mathlib

/-!
Verification of the Movie-Reviewer backend (src/index.js).

The program is an Express application backed by Mongoose/MongoDB. We embed
its six route handlers shallowly:

* JavaScript request-body values for `myScore` are modelled by `JsVal`
  (absent, string, or number; JSON bodies cannot carry `undefined` as a
  value, so `undef` means the key is absent). Numbers are modelled by ℚ;
  NaN/Infinity inputs and exponent-formatted string conversions are
  outside the modelled input space.
* `parseInt(x, 10)` is modelled by `JsVal.parseInt10` (string case: skip
  spaces, optional sign, longest digit prefix, `none` = NaN; number case:
  truncation toward zero, matching `parseInt(String(q))` for numbers that
  stringify in plain decimal notation).
* The Mongoose `Number` cast used when a raw value is written through an
  update is modelled by `JsVal.castNumber` (string case: full-string
  decimal parse as by `Number(s)`, `none` = CastError; empty string is 0).
* A stored document (`Movie`) has exactly the schema fields, each
  optional; the store is a list of documents in insertion order. The
  unique index on `imdbID` makes inserts, and updates that change
  `imdbID`, fail when the value would collide (MongoDB also treats two
  missing values as colliding nulls, hence plain `Option` equality).
  Internal bookkeeping fields (`_id`, `__v`) are not modelled; the
  `select(-__v -_id)` projections remove exactly those.
* `Movie.updateOne(filter, doc)` with an operator-free `doc` is, per
  Mongoose, an implicit `$set` of the defined, schema-declared fields of
  `doc`: keys with value `undefined` and keys outside the schema are
  stripped before the update is sent. `applySet` applies such a patch
  field by field.
* The catalog (OMDb) call is a function from the request key to either a
  parsed JSON response or a transport/parsing failure (`axios` throw).
  URL construction and the API key are abstracted away; `if (year)`
  falsiness is kept. Response fields are carried as optional strings plus
  an `extra` list for keys outside the stored schema; the response-level
  `Response` flag is kept separately.
-/

/-- JavaScript value supplied for a request-body field. -/
inductive JsVal where
  | undef
  | str (s : String)
  | num (q : ℚ)
deriving DecidableEq

/-- Numeric value of a list of decimal digit characters. -/
def natOfDigits (l : List Char) : Nat :=
  l.foldl (fun a c => a * 10 + (c.toNat - 48)) 0

/-- Model of the string case of `parseInt(s, 10)`: skip leading spaces,
optional sign, then the longest digit prefix; `none` models NaN. -/
def parseIntStr (s : String) : Option Int :=
  let l := s.data.dropWhile (fun c => c = ' ')
  let core : List Char → Option Int := fun l =>
    let ds := l.takeWhile Char.isDigit
    if ds.isEmpty then none else some (natOfDigits ds)
  match l with
  | '-' :: rest => (core rest).map (fun n => -n)
  | '+' :: rest => core rest
  | l => core l

/-- Model of `Number(s)` on a plain decimal string: trim spaces, empty
string is 0, optional sign, digits with an optional fraction part; `none`
models NaN (and hence a Mongoose CastError when written to a Number path). -/
def jsNumberStr (s : String) : Option ℚ :=
  let l := s.data.dropWhile (fun c => c = ' ')
  let l := (l.reverse.dropWhile (fun c => c = ' ')).reverse
  let core : List Char → Option ℚ := fun l =>
    let ds := l.takeWhile Char.isDigit
    let rest := l.dropWhile Char.isDigit
    match rest with
    | [] => if ds.isEmpty then none else some (natOfDigits ds)
    | '.' :: frac =>
        if frac.all Char.isDigit && !(ds.isEmpty && frac.isEmpty) then
          some (mkRat (natOfDigits ds * 10 ^ frac.length + natOfDigits frac)
            (10 ^ frac.length))
        else none
    | _ => none
  match l with
  | [] => some 0
  | '-' :: rest => (core rest).map (fun q => -q)
  | '+' :: rest => core rest
  | l => core l

/-- Truncation of a rational toward zero, as `parseInt` applied to the
plain decimal rendering of a number. -/
def ratTrunc (q : ℚ) : Int := Int.tdiv q.num (q.den : Int)

/-- Model of `parseInt(x, 10)` on a request-body value. `undefined`
stringifies to a non-numeric word, hence NaN. -/
def JsVal.parseInt10 : JsVal → Option Int
  | .undef => none
  | .str s => parseIntStr s
  | .num q => some (ratTrunc q)

/-- Model of the Mongoose `Number` schema cast applied to a raw value
written through an update; `none` is a CastError. -/
def JsVal.castNumber : JsVal → Option ℚ
  | .undef => none
  | .str s => jsNumberStr s
  | .num q => some q

/-- Subdocument of the `Ratings` array (ratingSchema). -/
structure Rating where
  Source : Option String
  Value : Option String
deriving DecidableEq

/-- Parsed JSON body of a catalog (OMDb) response: the response-level
`Response` flag, the fields that the movie schema also declares, and the
remaining keys (`extra`) that are outside the stored schema. -/
structure CatalogResponse where
  Response : Option String
  Title : Option String
  Year : Option String
  Rated : Option String
  Released : Option String
  Runtime : Option String
  Genre : Option String
  Director : Option String
  Writer : Option String
  Actors : Option String
  Plot : Option String
  Language : Option String
  Country : Option String
  Awards : Option String
  Ratings : Option (List Rating)
  Metascore : Option String
  imdbRating : Option String
  imdbVotes : Option String
  imdbID : Option String
  BoxOffice : Option String
  extra : List (String × String)
deriving DecidableEq

/-- Result of one catalog call: a parsed response, or an `axios`
transport/parsing failure (a throw). -/
inductive CatalogReply where
  | ok (resp : CatalogResponse)
  | fail
deriving DecidableEq

/-- Stored document: exactly the movieSchema fields, each optional.
`myScore` is a Mongo number (ℚ in the model), not necessarily an integer,
because the PATCH handler writes the raw request value through the cast. -/
structure Movie where
  Title : Option String := none
  Year : Option String := none
  Rated : Option String := none
  Released : Option String := none
  Runtime : Option String := none
  Genre : Option String := none
  Director : Option String := none
  Writer : Option String := none
  Actors : Option String := none
  Plot : Option String := none
  Language : Option String := none
  Country : Option String := none
  Awards : Option String := none
  Ratings : Option (List Rating) := none
  Metascore : Option String := none
  imdbRating : Option String := none
  imdbVotes : Option String := none
  imdbID : Option String := none
  BoxOffice : Option String := none
  myScore : Option ℚ := none
  myReview : Option String := none
deriving DecidableEq, Inhabited

/-- In-memory object built by the upsert handlers:
`{...response.data, myScore: score, myReview}` — the whole raw catalog
response spread first, then the two user fields set. -/
structure MovieData where
  resp : CatalogResponse
  myScore : Int
  myReview : Option String
deriving DecidableEq

/-- Schema cast of the spread object, as performed both by
`new Movie(movieData)` and by the implicit `$set` of `updateOne`: keys
outside the schema (the `Response` flag, `extra`) are stripped, an
`undefined` `myReview` is stripped, `myScore` is the already-parsed
integer. -/
def MovieData.toMovie (d : MovieData) : Movie :=
  { Title := d.resp.Title
    Year := d.resp.Year
    Rated := d.resp.Rated
    Released := d.resp.Released
    Runtime := d.resp.Runtime
    Genre := d.resp.Genre
    Director := d.resp.Director
    Writer := d.resp.Writer
    Actors := d.resp.Actors
    Plot := d.resp.Plot
    Language := d.resp.Language
    Country := d.resp.Country
    Awards := d.resp.Awards
    Ratings := d.resp.Ratings
    Metascore := d.resp.Metascore
    imdbRating := d.resp.imdbRating
    imdbVotes := d.resp.imdbVotes
    imdbID := d.resp.imdbID
    BoxOffice := d.resp.BoxOffice
    myScore := some (d.myScore : ℚ)
    myReview := d.myReview }

/-- Field-level choice of a `$set` patch: a defined field of the patch
replaces the stored one, an absent field leaves it. -/
def setField {α : Type} (u old : Option α) : Option α :=
  match u with
  | some v => some v
  | none => old

/-- Application of an implicit `$set` whose update document is `u`
(fields valued `none` are the keys stripped from the update). The
modelled flows never `$set` a field to null, so absent-vs-null inside the
patch needs no distinction. -/
def Movie.applySet (m u : Movie) : Movie :=
  { Title := setField u.Title m.Title
    Year := setField u.Year m.Year
    Rated := setField u.Rated m.Rated
    Released := setField u.Released m.Released
    Runtime := setField u.Runtime m.Runtime
    Genre := setField u.Genre m.Genre
    Director := setField u.Director m.Director
    Writer := setField u.Writer m.Writer
    Actors := setField u.Actors m.Actors
    Plot := setField u.Plot m.Plot
    Language := setField u.Language m.Language
    Country := setField u.Country m.Country
    Awards := setField u.Awards m.Awards
    Ratings := setField u.Ratings m.Ratings
    Metascore := setField u.Metascore m.Metascore
    imdbRating := setField u.imdbRating m.imdbRating
    imdbVotes := setField u.imdbVotes m.imdbVotes
    imdbID := setField u.imdbID m.imdbID
    BoxOffice := setField u.BoxOffice m.BoxOffice
    myScore := setField u.myScore m.myScore
    myReview := setField u.myReview m.myReview }

/-- Document store state: stored documents in insertion order. -/
abbrev Store := List Movie

/-- First document matched by a `{imdbID: k}` filter (`findOne`). When
the filter value is `undefined` Mongoose strips the condition, so the
empty filter matches the first document. -/
def findOneById (s : Store) (k : Option String) : Option Movie :=
  match k with
  | none => s.head?
  | some key => s.find? (fun m => m.imdbID == some key)

/-- Replacement by `$set` of the first document matching
`{imdbID: key}`: returns the old document, the patched document, and the
resulting store; `none` when nothing matches. -/
def setFirstById : Store → String → Movie → Option (Movie × Movie × Store)
  | [], _, _ => none
  | m :: rest, key, u =>
      if m.imdbID == some key then some (m, m.applySet u, m.applySet u :: rest)
      else (setFirstById rest key u).map (fun p => (p.1, p.2.1, m :: p.2.2))

/-- Model of `updateOne({imdbID: k}, doc)`: implicit `$set` of the first
matched document; no match updates nothing. `none` models the rejection
by the unique index on `imdbID` when the patch moves `imdbID` onto a
value some stored document already has. -/
def updateOneById (s : Store) (k : Option String) (u : Movie) : Option Store :=
  match k with
  | none =>
      match s with
      | [] => some s
      | m :: rest =>
          let newDoc := m.applySet u
          if newDoc.imdbID == m.imdbID || s.all (fun x => x.imdbID != newDoc.imdbID) then
            some (newDoc :: rest)
          else none
  | some key =>
      match setFirstById s key u with
      | none => some s
      | some p =>
          if p.2.1.imdbID == p.1.imdbID || s.all (fun x => x.imdbID != p.2.1.imdbID) then
            some p.2.2
          else none

/-- Model of `new Movie(doc); save()`: append, or `none` for the
duplicate-key error from the unique index on `imdbID` (a missing value
indexes as null, so two missing values also collide). -/
def insertOne (s : Store) (m : Movie) : Option Store :=
  if s.all (fun x => x.imdbID != m.imdbID) then some (s ++ [m]) else none

/-- Model of `findOneAndDelete({imdbID: key})`: the removed document and
the remaining store, or `none` when nothing matches. -/
def deleteFirst (s : Store) (key : String) : Option (Movie × Store) :=
  match s with
  | [] => none
  | m :: rest =>
      if m.imdbID == some key then some (m, rest)
      else (deleteFirst rest key).map (fun p => (p.1, m :: p.2))

/-- JSON response body sent to the caller. -/
inductive Body where
  | message (s : String)
  | upserted (d : MovieData)
  | record (m : Movie)
  | records (l : List Movie)
  | deleted (message : String) (deletedMovie : Movie)
deriving DecidableEq

/-- Outcome of one handled request: HTTP status, JSON body, store state
after the request, and whether a catalog request was issued. -/
structure HandlerResult where
  status : Nat
  body : Body
  store : Store
  catalogCalled : Bool
deriving DecidableEq

/-- Handler of POST /api/review/by-id (src/index.js lines 57-102). The id
is modelled as absent or a string (`!id` is true on absence and on the
empty string); the score is validated by `parseInt` and the range check
before any catalog call; the store lookup and the update are keyed by the
caller-supplied id; the 201 body is the raw spread object. 500 bodies
carry the thrown message (abstracted to fixed strings here). -/
def postReviewById (cat : String → CatalogReply) (store : Store)
    (id : Option String) (myScore : JsVal) (myReview : Option String) : HandlerResult :=
  if id.getD "" = "" then
    ⟨400, .message "Movie ID is required", store, false⟩
  else
    match myScore.parseInt10 with
    | none => ⟨400, .message "Score must be between 0 and 10", store, false⟩
    | some score =>
        if score < 0 || score > 10 then
          ⟨400, .message "Score must be between 0 and 10", store, false⟩
        else
          let idStr := id.getD ""
          match cat idStr with
          | .fail => ⟨500, .message "upstream failure", store, true⟩
          | .ok resp =>
              if resp.Response = some "True" then
                let movieData : MovieData := ⟨resp, score, myReview⟩
                match findOneById store (some idStr) with
                | some _ =>
                    match updateOneById store (some idStr) movieData.toMovie with
                    | some s2 => ⟨201, .upserted movieData, s2, true⟩
                    | none => ⟨500, .message "duplicate key error", store, true⟩
                | none =>
                    match insertOne store movieData.toMovie with
                    | some s2 => ⟨201, .upserted movieData, s2, true⟩
                    | none => ⟨500, .message "duplicate key error", store, true⟩
              else ⟨404, .message "Movie not found", store, true⟩

/-- Handler of POST /api/review/by-title (src/index.js lines 104-146).
The catalog is called by title, with the year appended only when truthy;
the store lookup and the update are keyed by the imdbID of the catalog
response (`undefined` there makes the filter condition vanish). -/
def postReviewByTitle (cat : String → Option String → CatalogReply) (store : Store)
    (title : Option String) (year : Option String) (myScore : JsVal)
    (myReview : Option String) : HandlerResult :=
  if title.getD "" = "" then
    ⟨400, .message "Title is required", store, false⟩
  else
    match myScore.parseInt10 with
    | none => ⟨400, .message "Score must be between 0 and 10", store, false⟩
    | some score =>
        if score < 0 || score > 10 then
          ⟨400, .message "Score must be between 0 and 10", store, false⟩
        else
          let titleStr := title.getD ""
          let yearArg := if year.getD "" = "" then none else year
          match cat titleStr yearArg with
          | .fail => ⟨500, .message "upstream failure", store, true⟩
          | .ok resp =>
              if resp.Response = some "True" then
                let movieData : MovieData := ⟨resp, score, myReview⟩
                match findOneById store resp.imdbID with
                | some _ =>
                    match updateOneById store resp.imdbID movieData.toMovie with
                    | some s2 => ⟨201, .upserted movieData, s2, true⟩
                    | none => ⟨500, .message "duplicate key error", store, true⟩
                | none =>
                    match insertOne store movieData.toMovie with
                    | some s2 => ⟨201, .upserted movieData, s2, true⟩
                    | none => ⟨500, .message "duplicate key error", store, true⟩
              else ⟨404, .message "Movie not found", store, true⟩

/-- Handler of GET /api/movies (src/index.js lines 148-155): every stored
document, bookkeeping fields projected away (not modelled). -/
def getAllMovies (store : Store) : HandlerResult :=
  ⟨200, .records store, store, false⟩

/-- Update object built by the PATCH handler: only the fields present in
the request, `myScore` still holding the raw request value. -/
structure PatchData where
  myScore : Option JsVal := none
  myReview : Option String := none
deriving DecidableEq

/-- Model of `findOneAndUpdate({imdbID: key}, {$set: u}, {new: true})`:
the raw score value is cast by the Number schema type before the query
runs (`none` = CastError throw); then the first matched document is
patched and returned. -/
def findOneAndUpdateSet (store : Store) (key : String) (u : PatchData) :
    Option (Option Movie × Store) :=
  let cast? : Option (Option ℚ) :=
    match u.myScore with
    | none => some none
    | some v => v.castNumber.map some
  match cast? with
  | none => none
  | some scoreCast =>
      match setFirstById store key { myScore := scoreCast, myReview := u.myReview } with
      | none => some (none, store)
      | some p => some (some p.2.1, p.2.2)

/-- Handler of PATCH /api/movies/:imdbID (src/index.js lines 157-190).
When `myScore` is present it is range-validated via `parseInt`, but the
raw value — not the parsed integer — is put into the update object. -/
def patchMovie (store : Store) (imdbID : String) (myScore : JsVal)
    (myReview : Option String) : HandlerResult :=
  let validated : Option HandlerResult :=
    match myScore with
    | .undef => none
    | v =>
        match v.parseInt10 with
        | none => some ⟨400, .message "Score must be between 0 and 10", store, false⟩
        | some score =>
            if score < 0 || score > 10 then
              some ⟨400, .message "Score must be between 0 and 10", store, false⟩
            else none
  match validated with
  | some r => r
  | none =>
      let u : PatchData :=
        { myScore := match myScore with | .undef => none | v => some v
          myReview := myReview }
      match findOneAndUpdateSet store imdbID u with
      | none => ⟨500, .message "cast error", store, false⟩
      | some (none, _) => ⟨404, .message "Movie not found", store, false⟩
      | some (some doc, s2) => ⟨200, .record doc, s2, false⟩

/-- Handler of GET /api/movies/:imdbID (src/index.js lines 192-204). -/
def getMovie (store : Store) (imdbID : String) : HandlerResult :=
  match findOneById store (some imdbID) with
  | some m => ⟨200, .record m, store, false⟩
  | none => ⟨404, .message "Movie not found", store, false⟩

/-- Handler of DELETE /api/movies/:imdbID (src/index.js lines 206-227). -/
def deleteMovie (store : Store) (imdbID : String) : HandlerResult :=
  match deleteFirst store imdbID with
  | some p => ⟨200, .deleted "Movie successfully deleted" p.1, p.2, false⟩
  | none => ⟨404, .message "Movie not found", store, false⟩

/-- Outcome of step 5 of the spec upsert workflow, parametric in the
lookup key: look up an existing Record by the key, replace when found,
insert otherwise, and respond with the merged object (201). Written from
the spec wording of section 4.1 so that the keying of each code path can
be stated against it. -/
def upsertOutcome (store : Store) (k : Option String) (d : MovieData) : HandlerResult :=
  match findOneById store k with
  | some _ =>
      match updateOneById store k d.toMovie with
      | some s2 => ⟨201, .upserted d, s2, true⟩
      | none => ⟨500, .message "duplicate key error", store, true⟩
  | none =>
      match insertOne store d.toMovie with
      | some s2 => ⟨201, .upserted d, s2, true⟩
      | none => ⟨500, .message "duplicate key error", store, true⟩

/-- Predicate: the stored documents carry pairwise distinct imdbID
values (the invariant the unique index maintains). -/
def uniqueIds : Store → Bool
  | [] => true
  | m :: rest => rest.all (fun x => x.imdbID != m.imdbID) && uniqueIds rest

/-- Number of stored documents carrying a given imdbID. -/
def countId (s : Store) (key : String) : Nat :=
  s.countP (fun m => m.imdbID == some key)

/-- Predicate: the catalog response carries every schema-declared
metadata field. -/
def CatalogResponse.full (r : CatalogResponse) : Bool :=
  r.Title.isSome && r.Year.isSome && r.Rated.isSome && r.Released.isSome &&
  r.Runtime.isSome && r.Genre.isSome && r.Director.isSome && r.Writer.isSome &&
  r.Actors.isSome && r.Plot.isSome && r.Language.isSome && r.Country.isSome &&
  r.Awards.isSome && r.Ratings.isSome && r.Metascore.isSome && r.imdbRating.isSome &&
  r.imdbVotes.isSome && r.imdbID.isSome && r.BoxOffice.isSome

/-- Catalog-sourced fields of a stored document agree with those of a
catalog response. -/
def Movie.catalogFieldsEq (m : Movie) (r : CatalogResponse) : Prop :=
  m.Title = r.Title ∧ m.Year = r.Year ∧ m.Rated = r.Rated ∧ m.Released = r.Released ∧
  m.Runtime = r.Runtime ∧ m.Genre = r.Genre ∧ m.Director = r.Director ∧
  m.Writer = r.Writer ∧ m.Actors = r.Actors ∧ m.Plot = r.Plot ∧
  m.Language = r.Language ∧ m.Country = r.Country ∧ m.Awards = r.Awards ∧
  m.Ratings = r.Ratings ∧ m.Metascore = r.Metascore ∧ m.imdbRating = r.imdbRating ∧
  m.imdbVotes = r.imdbVotes ∧ m.imdbID = r.imdbID ∧ m.BoxOffice = r.BoxOffice

/-- Fields of a stored document outside the two user fields agree between
two documents (the frame of a PATCH request). -/
def Movie.catalogAgrees (a b : Movie) : Prop :=
  a.Title = b.Title ∧ a.Year = b.Year ∧ a.Rated = b.Rated ∧ a.Released = b.Released ∧
  a.Runtime = b.Runtime ∧ a.Genre = b.Genre ∧ a.Director = b.Director ∧
  a.Writer = b.Writer ∧ a.Actors = b.Actors ∧ a.Plot = b.Plot ∧
  a.Language = b.Language ∧ a.Country = b.Country ∧ a.Awards = b.Awards ∧
  a.Ratings = b.Ratings ∧ a.Metascore = b.Metascore ∧ a.imdbRating = b.imdbRating ∧
  a.imdbVotes = b.imdbVotes ∧ a.imdbID = b.imdbID ∧ a.BoxOffice = b.BoxOffice

theorem setField_of_isSome {α : Type} {o : Option α} (x : Option α)
    (h : o.isSome = true) : setField o x = o := by
  cases o with
  | some v => rfl
  | none => cases h

theorem setField_idem {α : Type} (u o : Option α) :
    setField u (setField u o) = setField u o := by
  cases u <;> rfl

theorem setField_self {α : Type} (o : Option α) : setField o o = o := by
  cases o <;> rfl

theorem applySet_applySet (m u : Movie) : (m.applySet u).applySet u = m.applySet u := by
  simp [Movie.applySet, setField_idem]

theorem applySet_self (m : Movie) : m.applySet m = m := by
  simp [Movie.applySet, setField_self]


theorem find_append_single {s : Store} {p : Movie → Bool} (h : s.find? p = none)
    (m : Movie) : (s ++ [m]).find? p = if p m then some m else none := by
  induction s with
  | nil =>
      cases hm : p m <;> simp [List.find?_cons, hm]
  | cons a t ih =>
      cases ha : p a with
      | true => simp [List.find?_cons, ha] at h
      | false =>
          simp only [List.find?_cons, ha] at h
          simp only [List.cons_append, List.find?_cons, ha]
          exact ih h

theorem countP_eq_zero_of_find_none {s : Store} {p : Movie → Bool}
    (h : s.find? p = none) : s.countP p = 0 := by
  rw [List.countP_eq_zero]
  rw [List.find?_eq_none] at h
  intro a ha
  exact h a ha

theorem setFirstById_none {key : String} {u : Movie} :
    ∀ {s : Store}, s.find? (fun x => x.imdbID == some key) = none →
    setFirstById s key u = none := by
  intro s
  induction s with
  | nil => intro _; rfl
  | cons a t ih =>
      intro h
      cases ha : (a.imdbID == some key) with
      | true => simp [List.find?_cons, ha] at h
      | false =>
          simp only [List.find?_cons, ha] at h
          simp only [setFirstById, ha, ih h]
          rfl

theorem setFirstById_spec {key : String} {u : Movie} :
    ∀ {s : Store} {m : Movie}, s.find? (fun x => x.imdbID == some key) = some m →
    ∃ s2, setFirstById s key u = some (m, m.applySet u, s2) ∧
      (m.applySet u = m → s2 = s) ∧
      ((m.applySet u).imdbID = some key →
        s2.find? (fun x => x.imdbID == some key) = some (m.applySet u)) ∧
      ((m.applySet u).imdbID = some key → countId s2 key = countId s key) := by
  intro s
  induction s with
  | nil => intro m h; cases h
  | cons a t ih =>
      intro m h
      cases ha : (a.imdbID == some key) with
      | true =>
          simp only [List.find?_cons, ha, Option.some.injEq] at h
          subst h
          refine ⟨a.applySet u :: t, ?_, ?_, ?_, ?_⟩
          · simp [setFirstById, ha]
          · intro he; rw [he]
          · intro hk
            simp [List.find?_cons, hk]
          · intro hk
            simp [countId, List.countP_cons, ha, hk]
      | false =>
          simp only [List.find?_cons, ha] at h
          obtain ⟨s2, h1, h2, h3, h4⟩ := ih h
          refine ⟨a :: s2, ?_, ?_, ?_, ?_⟩
          · simp [setFirstById, ha, h1]
          · intro he; rw [h2 he]
          · intro hk
            simp only [List.find?_cons, ha]
            exact h3 hk
          · intro hk
            have h5 := h4 hk
            simp only [countId] at h5
            simp [countId, List.countP_cons, ha, h5]

theorem updateOneById_found {s : Store} {key : String} {u m : Movie}
    (h : s.find? (fun x => x.imdbID == some key) = some m)
    (hid : (m.applySet u).imdbID = some key) :
    ∃ s2, updateOneById s (some key) u = some s2 ∧
      s2.find? (fun x => x.imdbID == some key) = some (m.applySet u) ∧
      countId s2 key = countId s key ∧
      (m.applySet u = m → s2 = s) := by
  obtain ⟨s2, h1, h2, h3, h4⟩ := setFirstById_spec h
  have hm : m.imdbID = some key := by
    have hp := List.find?_some h
    simpa using hp
  refine ⟨s2, ?_, h3 hid, h4 hid, h2⟩
  simp [updateOneById, h1, hid, hm]

theorem insertOne_fresh {s : Store} {key : String} {m : Movie}
    (h : s.find? (fun x => x.imdbID == some key) = none)
    (hm : m.imdbID = some key) :
    insertOne s m = some (s ++ [m]) ∧
    (s ++ [m]).find? (fun x => x.imdbID == some key) = some m ∧
    countId (s ++ [m]) key = countId s key + 1 := by
  have hall : s.all (fun x => x.imdbID != m.imdbID) = true := by
    rw [List.all_eq_true]
    intro x hx
    have hx2 := (List.find?_eq_none.mp h) x hx
    simp only [beq_iff_eq] at hx2
    simp [bne_iff_ne, hm, hx2]
  refine ⟨by simp [insertOne, hall], ?_, ?_⟩
  · have := find_append_single h m
    simp [hm] at this
    simpa [hm] using this
  · simp [countId, List.countP_append, List.countP_cons, hm]

theorem countId_eq_one_of_unique {key : String} :
    ∀ {s : Store} {m : Movie}, uniqueIds s = true →
    s.find? (fun x => x.imdbID == some key) = some m → countId s key = 1 := by
  intro s
  induction s with
  | nil => intro m _ h; cases h
  | cons a t ih =>
      intro m hu h
      simp only [uniqueIds, Bool.and_eq_true] at hu
      obtain ⟨hall, hut⟩ := hu
      cases ha : (a.imdbID == some key) with
      | true =>
          have ha2 : a.imdbID = some key := by simpa using ha
          have hz : countId t key = 0 := by
            rw [countId, List.countP_eq_zero]
            intro x hx
            have hne := (List.all_eq_true.mp hall) x hx
            simp only [bne_iff_ne, ne_eq, ha2] at hne
            simp [hne]
          simp only [countId, List.countP_cons, ha] at hz ⊢
          simp [hz]
      | false =>
          simp only [List.find?_cons, ha] at h
          have hone := ih hut h
          simp only [countId, List.countP_cons, ha] at hone ⊢
          simp [hone]

theorem deleteFirst_none {key : String} :
    ∀ {s : Store}, s.find? (fun x => x.imdbID == some key) = none →
    deleteFirst s key = none := by
  intro s
  induction s with
  | nil => intro _; rfl
  | cons a t ih =>
      intro h
      cases ha : (a.imdbID == some key) with
      | true => simp [List.find?_cons, ha] at h
      | false =>
          simp only [List.find?_cons, ha] at h
          simp [deleteFirst, ha, ih h]

theorem deleteFirst_found {key : String} :
    ∀ {s : Store} {m : Movie}, s.find? (fun x => x.imdbID == some key) = some m →
    ∃ s2, deleteFirst s key = some (m, s2) ∧
      (uniqueIds s = true → s2.find? (fun x => x.imdbID == some key) = none) := by
  intro s
  induction s with
  | nil => intro m h; cases h
  | cons a t ih =>
      intro m h
      cases ha : (a.imdbID == some key) with
      | true =>
          simp only [List.find?_cons, ha, Option.some.injEq] at h
          subst h
          refine ⟨t, by simp [deleteFirst, ha], ?_⟩
          intro hu
          simp only [uniqueIds, Bool.and_eq_true] at hu
          obtain ⟨hall, _⟩ := hu
          have ha2 : a.imdbID = some key := by simpa using ha
          rw [List.find?_eq_none]
          intro x hx
          have hne := (List.all_eq_true.mp hall) x hx
          simp only [bne_iff_ne, ne_eq, ha2] at hne
          simp [hne]
      | false =>
          simp only [List.find?_cons, ha] at h
          obtain ⟨s2, h1, h2⟩ := ih h
          refine ⟨a :: s2, by simp [deleteFirst, ha, h1], ?_⟩
          intro hu
          simp only [uniqueIds, Bool.and_eq_true] at hu
          obtain ⟨_, hut⟩ := hu
          rw [List.find?_cons_of_neg _ (by simp [ha])]
          exact h2 hut

theorem postReviewById_reduce {cat : String → CatalogReply} {store : Store}
    {idStr : String} {myScore : JsVal} {myReview : Option String} {score : Int}
    {resp : CatalogResponse}
    (hid : idStr ≠ "") (hp : myScore.parseInt10 = some score)
    (h0 : 0 ≤ score) (h10 : score ≤ 10) (hcat : cat idStr = .ok resp)
    (hT : resp.Response = some "True") :
    postReviewById cat store (some idStr) myScore myReview =
      upsertOutcome store (some idStr) ⟨resp, score, myReview⟩ := by
  have hb : (decide (score < 0) || decide (score > 10)) = false := by
    simp only [Bool.or_eq_false_iff, decide_eq_false_iff_not, not_lt]
    exact ⟨h0, h10⟩
  simp only [postReviewById, Option.getD_some, if_neg hid, hp, hb, hcat, hT,
    Bool.false_eq_true, if_false, if_pos, upsertOutcome]

theorem postReviewByTitle_reduce {cat : String → Option String → CatalogReply}
    {store : Store} {titleStr : String} {year : Option String} {myScore : JsVal}
    {myReview : Option String} {score : Int} {resp : CatalogResponse}
    (htitle : titleStr ≠ "") (hp : myScore.parseInt10 = some score)
    (h0 : 0 ≤ score) (h10 : score ≤ 10)
    (hcat : cat titleStr (if year.getD "" = "" then none else year) = .ok resp)
    (hT : resp.Response = some "True") :
    postReviewByTitle cat store (some titleStr) year myScore myReview =
      upsertOutcome store resp.imdbID ⟨resp, score, myReview⟩ := by
  have hb : (decide (score < 0) || decide (score > 10)) = false := by
    simp only [Bool.or_eq_false_iff, decide_eq_false_iff_not, not_lt]
    exact ⟨h0, h10⟩
  simp only [postReviewByTitle, Option.getD_some, if_neg htitle, hp, hb, hcat, hT,
    Bool.false_eq_true, if_false, if_pos, upsertOutcome]

theorem upsertOutcome_fields {store : Store} {key : String} {d : MovieData}
    (hkey : d.resp.imdbID = some key) (hfull : d.resp.full = true) :
    ∃ s2 m2, upsertOutcome store (some key) d = ⟨201, .upserted d, s2, true⟩ ∧
      s2.find? (fun x => x.imdbID == some key) = some m2 ∧
      m2.myScore = some (d.myScore : ℚ) ∧
      (∀ r, d.myReview = some r → m2.myReview = some r) ∧
      m2.catalogFieldsEq d.resp := by
  simp only [CatalogResponse.full, Bool.and_eq_true] at hfull
  obtain ⟨⟨⟨⟨⟨⟨⟨⟨⟨⟨⟨⟨⟨⟨⟨⟨⟨⟨h01, h02⟩, h03⟩, h04⟩, h05⟩, h06⟩, h07⟩, h08⟩, h09⟩,
    h10⟩, h11⟩, h12⟩, h13⟩, h14⟩, h15⟩, h16⟩, h17⟩, h18⟩, h19⟩ := hfull
  cases hfind : store.find? (fun x => x.imdbID == some key) with
  | none =>
      have hm : d.toMovie.imdbID = some key := by
        simpa [MovieData.toMovie] using hkey
      obtain ⟨hins, hfind2, _⟩ := insertOne_fresh hfind hm
      refine ⟨store ++ [d.toMovie], d.toMovie, ?_, hfind2, ?_, ?_, ?_⟩
      · simp [upsertOutcome, findOneById, hfind, hins]
      · rfl
      · intro r hr; simp [MovieData.toMovie, hr]
      · simp [MovieData.toMovie, Movie.catalogFieldsEq]
  | some m =>
      have hid : (m.applySet d.toMovie).imdbID = some key := by
        simp [Movie.applySet, MovieData.toMovie, hkey, setField]
      obtain ⟨s2, hupd, hfind2, _, _⟩ := updateOneById_found hfind hid
      refine ⟨s2, m.applySet d.toMovie, ?_, hfind2, ?_, ?_, ?_⟩
      · simp [upsertOutcome, findOneById, hfind, hupd]
      · simp [Movie.applySet, MovieData.toMovie, setField]
      · intro r hr; simp [Movie.applySet, MovieData.toMovie, hr, setField]
      · simp only [Movie.catalogFieldsEq, Movie.applySet, MovieData.toMovie]
        exact ⟨setField_of_isSome _ h01, setField_of_isSome _ h02,
          setField_of_isSome _ h03, setField_of_isSome _ h04,
          setField_of_isSome _ h05, setField_of_isSome _ h06,
          setField_of_isSome _ h07, setField_of_isSome _ h08,
          setField_of_isSome _ h09, setField_of_isSome _ h10,
          setField_of_isSome _ h11, setField_of_isSome _ h12,
          setField_of_isSome _ h13, setField_of_isSome _ h14,
          setField_of_isSome _ h15, setField_of_isSome _ h16,
          setField_of_isSome _ h17, by simp [hkey, setField],
          setField_of_isSome _ h19⟩

theorem upsertOutcome_success {store : Store} {key : String} {d : MovieData}
    (hkey : d.resp.imdbID = some key) :
    ∃ s2, upsertOutcome store (some key) d = ⟨201, .upserted d, s2, true⟩ := by
  cases hfind : store.find? (fun x => x.imdbID == some key) with
  | none =>
      have hm : d.toMovie.imdbID = some key := by
        simpa [MovieData.toMovie] using hkey
      obtain ⟨hins, _, _⟩ := insertOne_fresh hfind hm
      exact ⟨store ++ [d.toMovie], by simp [upsertOutcome, findOneById, hfind, hins]⟩
  | some m =>
      have hid : (m.applySet d.toMovie).imdbID = some key := by
        simp [Movie.applySet, MovieData.toMovie, hkey, setField]
      obtain ⟨s2, hupd, _, _, _⟩ := updateOneById_found hfind hid
      exact ⟨s2, by simp [upsertOutcome, findOneById, hfind, hupd]⟩

theorem patchMovie_score_reduce {store : Store} {key : String} {v : JsVal}
    {review : Option String} {n : Int}
    (hv : v.parseInt10 = some n) (h0 : 0 ≤ n) (h10 : n ≤ 10) (hundef : v ≠ .undef) :
    patchMovie store key v review =
      match findOneAndUpdateSet store key { myScore := some v, myReview := review } with
      | none => ⟨500, .message "cast error", store, false⟩
      | some (none, _) => ⟨404, .message "Movie not found", store, false⟩
      | some (some doc, s2) => ⟨200, .record doc, s2, false⟩ := by
  have hb : (decide (n < 0) || decide (n > 10)) = false := by
    simp only [Bool.or_eq_false_iff, decide_eq_false_iff_not, not_lt]
    exact ⟨h0, h10⟩
  cases v with
  | undef => exact absurd rfl hundef
  | str s => simp [patchMovie, hv, hb]
  | num q => simp [patchMovie, hv, hb]

/-- Concrete catalog response used to instantiate the theorems (the
spec section 8 example movie, with one key outside the stored schema). -/
def respMatrix : CatalogResponse :=
  { Response := some "True", Title := some "The Matrix", Year := some "1999",
    Rated := some "R", Released := some "31 Mar 1999", Runtime := some "136 min",
    Genre := some "Action", Director := some "Lana Wachowski",
    Writer := some "Lilly Wachowski", Actors := some "Keanu Reeves",
    Plot := some "A computer hacker learns the truth.",
    Language := some "English", Country := some "USA", Awards := some "4 Oscars",
    Ratings := some [⟨some "Internet Movie Database", some "8.7/10"⟩],
    Metascore := some "73", imdbRating := some "8.7", imdbVotes := some "1700000",
    imdbID := some "tt0133093", BoxOffice := some "171479930",
    extra := [("Type", "movie")] }

/-- Concrete by-id catalog: knows only the example movie. -/
def catMatrix : String → CatalogReply :=
  fun i => if i = "tt0133093" then .ok respMatrix else .fail

/-- Concrete by-title catalog: knows only the example movie. -/
def catMatrixT : String → Option String → CatalogReply :=
  fun t _ => if t = "The Matrix" then .ok respMatrix else .fail

/-- Concrete stored document preceding the concrete upserts. -/
def priorMovie : Movie :=
  { imdbID := some "tt0133093", myScore := some 3, myReview := some "old" }

/-- C1: for every valid input (id, score in [0,10], review) and a catalog
that returns Response "True" with the full metadata for that id, upsert
by id (POST /api/review/by-id) followed by get-by-key on the imdbID of
the record returns a Record whose myScore equals the validated integer
score, whose myReview equals the supplied review, and whose
catalog-sourced fields equal the fields of the last catalog response for
that id. -/
theorem upsertById_then_get_roundtrip
    {cat : String → CatalogReply} {store : Store} {idStr : String}
    {myScore : JsVal} {review : String} {score : Int} {resp : CatalogResponse}
    (hid : idStr ≠ "") (hp : myScore.parseInt10 = some score)
    (h0 : 0 ≤ score) (h10 : score ≤ 10) (hcat : cat idStr = .ok resp)
    (hT : resp.Response = some "True") (hkey : resp.imdbID = some idStr)
    (hfull : resp.full = true) :
    ∃ m2, getMovie (postReviewById cat store (some idStr) myScore (some review)).store idStr
        = ⟨200, .record m2,
            (postReviewById cat store (some idStr) myScore (some review)).store, false⟩ ∧
      m2.myScore = some (score : ℚ) ∧ m2.myReview = some review ∧
      m2.catalogFieldsEq resp := by
  rw [postReviewById_reduce hid hp h0 h10 hcat hT]
  obtain ⟨s2, m2, heq, hfind, hs, hr, hc⟩ :=
    @upsertOutcome_fields store idStr ⟨resp, score, some review⟩ hkey hfull
  rw [heq]
  exact ⟨m2, by simp [getMovie, findOneById, hfind], hs, hr review rfl, hc⟩

/-- Witness instantiating the C1 theorem on the spec example movie. -/
theorem upsertById_then_get_roundtrip_witness :
    ∃ m2, getMovie (postReviewById catMatrix [] (some "tt0133093") (.num 9)
          (some "Seminal.")).store "tt0133093"
        = ⟨200, .record m2,
            (postReviewById catMatrix [] (some "tt0133093") (.num 9)
              (some "Seminal.")).store, false⟩ ∧
      m2.myScore = some ((9 : Int) : ℚ) ∧ m2.myReview = some "Seminal." ∧
      m2.catalogFieldsEq respMatrix :=
  upsertById_then_get_roundtrip (by decide) (by decide) (by decide) (by decide)
    (by decide) (by decide) (by decide) (by decide)

/-- C3: a score input that is non-numeric (parseInt yields NaN) or parses
to an integer outside [0,10] makes upsert-by-id (POST /api/review/by-id)
and partial-update-by-key (PATCH /api/movies/:imdbID) both reject with
HTTP 400, issue no catalog request, and leave the store unmutated. (For
the PATCH path a score is supplied, hence the non-undefined hypothesis;
an absent score is simply not validated there.) -/
theorem invalid_score_rejected
    {cat : String → CatalogReply} {store : Store} {idStr key : String}
    {myScore : JsVal} {review : Option String}
    (hid : idStr ≠ "")
    (hbad : myScore.parseInt10 = none ∨
      ∃ n, myScore.parseInt10 = some n ∧ (n < 0 ∨ 10 < n)) :
    postReviewById cat store (some idStr) myScore review =
      ⟨400, .message "Score must be between 0 and 10", store, false⟩ ∧
    (myScore ≠ .undef →
      patchMovie store key myScore review =
        ⟨400, .message "Score must be between 0 and 10", store, false⟩) := by
  constructor
  · simp only [postReviewById, Option.getD_some, if_neg hid]
    rcases hbad with h | ⟨n, h, hr⟩
    · rw [h]
    · rw [h]
      have hb : (decide (n < 0) || decide (n > 10)) = true := by
        rcases hr with hr | hr <;> simp [hr]
      simp [hb]
  · intro hne
    cases myScore with
    | undef => exact absurd rfl hne
    | str s =>
        rcases hbad with h | ⟨n, h, hr⟩
        · simp [patchMovie, h]
        · have hb : (decide (n < 0) || decide (n > 10)) = true := by
            rcases hr with hr | hr <;> simp [hr]
          simp [patchMovie, h, hb]
    | num q =>
        rcases hbad with h | ⟨n, h, hr⟩
        · simp [patchMovie, h]
        · have hb : (decide (n < 0) || decide (n > 10)) = true := by
            rcases hr with hr | hr <;> simp [hr]
          simp [patchMovie, h, hb]

/-- Witness instantiating the C3 theorem on the spec example
`{id: tt0133093, myScore: 15}`. -/
theorem invalid_score_rejected_witness :
    postReviewById catMatrix [priorMovie] (some "tt0133093") (.num 15) none =
      ⟨400, .message "Score must be between 0 and 10", [priorMovie], false⟩ ∧
    (JsVal.num 15 ≠ .undef →
      patchMovie [priorMovie] "tt0133093" (.num 15) none =
        ⟨400, .message "Score must be between 0 and 10", [priorMovie], false⟩) :=
  invalid_score_rejected (by decide) (Or.inr ⟨15, by decide, Or.inr (by decide)⟩)

/-- C7: once input validation passes, a catalog response whose
response-level Response flag is "False" maps to HTTP 404 with no store
mutation, while a transport or parsing failure of the catalog call maps
to HTTP 500 with no store mutation, on both write paths; the two failure
kinds yield distinct statuses and are never conflated. -/
theorem upstream_notfound_vs_error
    {cat : String → CatalogReply} {cat2 : String → Option String → CatalogReply}
    {store : Store} {idStr titleStr : String} {year : Option String}
    {myScore : JsVal} {review : Option String} {score : Int}
    {resp resp2 : CatalogResponse}
    (hid : idStr ≠ "") (htitle : titleStr ≠ "")
    (hp : myScore.parseInt10 = some score) (h0 : 0 ≤ score) (h10 : score ≤ 10) :
    (cat idStr = .ok resp → resp.Response = some "False" →
      postReviewById cat store (some idStr) myScore review =
        ⟨404, .message "Movie not found", store, true⟩) ∧
    (cat idStr = .fail →
      postReviewById cat store (some idStr) myScore review =
        ⟨500, .message "upstream failure", store, true⟩) ∧
    (cat2 titleStr (if year.getD "" = "" then none else year) = .ok resp2 →
      resp2.Response = some "False" →
      postReviewByTitle cat2 store (some titleStr) year myScore review =
        ⟨404, .message "Movie not found", store, true⟩) ∧
    (cat2 titleStr (if year.getD "" = "" then none else year) = .fail →
      postReviewByTitle cat2 store (some titleStr) year myScore review =
        ⟨500, .message "upstream failure", store, true⟩) := by
  have hb : (decide (score < 0) || decide (score > 10)) = false := by
    simp only [Bool.or_eq_false_iff, decide_eq_false_iff_not, not_lt]
    exact ⟨h0, h10⟩
  refine ⟨?_, ?_, ?_, ?_⟩
  · intro hcat hF
    simp only [postReviewById, Option.getD_some, if_neg hid, hp, hb,
      Bool.false_eq_true, if_false, hcat]
    rw [if_neg (by simp [hF])]
  · intro hcat
    simp only [postReviewById, Option.getD_some, if_neg hid, hp, hb,
      Bool.false_eq_true, if_false, hcat]
  · intro hcat hF
    simp only [postReviewByTitle, Option.getD_some, if_neg htitle, hp, hb,
      Bool.false_eq_true, if_false, hcat]
    rw [if_neg (by simp [hF])]
  · intro hcat
    simp only [postReviewByTitle, Option.getD_some, if_neg htitle, hp, hb,
      Bool.false_eq_true, if_false, hcat]

/-- Catalog that always fails at transport level. -/
def catDown : String → CatalogReply := fun _ => .fail

/-- Concrete response with the not-found flag. -/
def respFalse : CatalogResponse := { respMatrix with Response := some "False" }

/-- By-title catalog that always answers with the not-found flag. -/
def catFalseT : String → Option String → CatalogReply := fun _ _ => .ok respFalse

/-- Witness instantiating the C7 theorem: a failing by-id catalog and a
by-title catalog answering Response "False". -/
theorem upstream_notfound_vs_error_witness :
    (catDown "tt1" = .ok respMatrix → respMatrix.Response = some "False" →
      postReviewById catDown [priorMovie] (some "tt1") (.num 5) none =
        ⟨404, .message "Movie not found", [priorMovie], true⟩) ∧
    (catDown "tt1" = .fail →
      postReviewById catDown [priorMovie] (some "tt1") (.num 5) none =
        ⟨500, .message "upstream failure", [priorMovie], true⟩) ∧
    (catFalseT "Dune" (if (none : Option String).getD "" = "" then none else none)
        = .ok respFalse →
      respFalse.Response = some "False" →
      postReviewByTitle catFalseT [priorMovie] (some "Dune") none (.num 5) none =
        ⟨404, .message "Movie not found", [priorMovie], true⟩) ∧
    (catFalseT "Dune" (if (none : Option String).getD "" = "" then none else none) = .fail →
      postReviewByTitle catFalseT [priorMovie] (some "Dune") none (.num 5) none =
        ⟨500, .message "upstream failure", [priorMovie], true⟩) :=
  @upstream_notfound_vs_error catDown catFalseT [priorMovie] "tt1" "Dune" none
    (.num 5) none 5 respMatrix respFalse
    (by decide) (by decide) (by decide) (by decide) (by decide)

/-- C8: delete-by-key (DELETE /api/movies/:imdbID) on a key with no
matching stored Record answers 404 and leaves the store unchanged; on a
matching key it removes that Record, answers 200 with the removed Record
in the body, and a subsequent get-by-key on the same key answers 404. -/
theorem delete_then_get
    {store : Store} {key : String} (huniq : uniqueIds store = true) :
    (findOneById store (some key) = none →
      deleteMovie store key = ⟨404, .message "Movie not found", store, false⟩) ∧
    (∀ m, findOneById store (some key) = some m →
      ∃ s2, deleteMovie store key =
          ⟨200, .deleted "Movie successfully deleted" m, s2, false⟩ ∧
        getMovie s2 key = ⟨404, .message "Movie not found", s2, false⟩) := by
  constructor
  · intro h
    have h2 : store.find? (fun x => x.imdbID == some key) = none := by
      simpa [findOneById] using h
    simp [deleteMovie, deleteFirst_none h2]
  · intro m h
    have h2 : store.find? (fun x => x.imdbID == some key) = some m := by
      simpa [findOneById] using h
    obtain ⟨s2, hd, hn⟩ := deleteFirst_found h2
    exact ⟨s2, by simp [deleteMovie, hd], by simp [getMovie, findOneById, hn huniq]⟩

/-- Witness instantiating the C8 theorem on a one-document store. -/
theorem delete_then_get_witness :
    (findOneById [priorMovie] (some "tt0133093") = none →
      deleteMovie [priorMovie] "tt0133093" =
        ⟨404, .message "Movie not found", [priorMovie], false⟩) ∧
    (∀ m, findOneById [priorMovie] (some "tt0133093") = some m →
      ∃ s2, deleteMovie [priorMovie] "tt0133093" =
          ⟨200, .deleted "Movie successfully deleted" m, s2, false⟩ ∧
        getMovie s2 "tt0133093" = ⟨404, .message "Movie not found", s2, false⟩) :=
  delete_then_get (by decide)

/-- C6: PATCH /api/movies/:imdbID with a body holding only myReview
leaves the stored myScore unchanged; with a body holding only a valid
myScore it leaves the stored myReview unchanged; the applied patch sets
exactly the supplied fields and every field absent from the request
keeps its stored value. -/
theorem patch_frame
    {store : Store} {key : String} {m : Movie} {review : String} {v : JsVal}
    {n : Int} {q : ℚ}
    (hfind : store.find? (fun x => x.imdbID == some key) = some m)
    (hv : v.parseInt10 = some n) (h0 : 0 ≤ n) (h10 : n ≤ 10)
    (hundef : v ≠ .undef) (hcast : v.castNumber = some q) :
    (∃ m2 s2, patchMovie store key .undef (some review) =
        ⟨200, .record m2, s2, false⟩ ∧
      m2.myScore = m.myScore ∧ m2.myReview = some review ∧ m2.catalogAgrees m ∧
      s2.find? (fun x => x.imdbID == some key) = some m2) ∧
    (∃ m3 s3, patchMovie store key v none = ⟨200, .record m3, s3, false⟩ ∧
      m3.myScore = some q ∧ m3.myReview = m.myReview ∧ m3.catalogAgrees m ∧
      s3.find? (fun x => x.imdbID == some key) = some m3) := by
  have hm : m.imdbID = some key := by simpa using List.find?_some hfind
  constructor
  · obtain ⟨s2, h1, _, h3, _⟩ :=
      setFirstById_spec (u := { myScore := none, myReview := some review }) hfind
    have hid2 : (m.applySet { myScore := none, myReview := some review }).imdbID
        = some key := by
      simpa [Movie.applySet, setField] using hm
    refine ⟨m.applySet { myScore := none, myReview := some review }, s2,
      ?_, ?_, ?_, ?_, h3 hid2⟩
    · simp [patchMovie, findOneAndUpdateSet, h1]
    · simp [Movie.applySet, setField]
    · simp [Movie.applySet, setField]
    · simp [Movie.catalogAgrees, Movie.applySet, setField]
  · obtain ⟨s3, h1, _, h3, _⟩ :=
      setFirstById_spec (u := { myScore := some q, myReview := none }) hfind
    have hid3 : (m.applySet { myScore := some q, myReview := none }).imdbID
        = some key := by
      simpa [Movie.applySet, setField] using hm
    refine ⟨m.applySet { myScore := some q, myReview := none }, s3,
      ?_, ?_, ?_, ?_, h3 hid3⟩
    · rw [patchMovie_score_reduce hv h0 h10 hundef]
      simp [findOneAndUpdateSet, hcast, h1]
    · simp [Movie.applySet, setField]
    · simp [Movie.applySet, setField]
    · simp [Movie.catalogAgrees, Movie.applySet, setField]

/-- Witness instantiating the C6 theorem on a one-document store, with
the score input 7. -/
theorem patch_frame_witness :
    (∃ m2 s2, patchMovie [priorMovie] "tt0133093" .undef (some "fresh") =
        ⟨200, .record m2, s2, false⟩ ∧
      m2.myScore = priorMovie.myScore ∧ m2.myReview = some "fresh" ∧
      m2.catalogAgrees priorMovie ∧
      s2.find? (fun x => x.imdbID == some "tt0133093") = some m2) ∧
    (∃ m3 s3, patchMovie [priorMovie] "tt0133093" (.str "7") none =
        ⟨200, .record m3, s3, false⟩ ∧
      m3.myScore = some 7 ∧ m3.myReview = priorMovie.myReview ∧
      m3.catalogAgrees priorMovie ∧
      s3.find? (fun x => x.imdbID == some "tt0133093") = some m3) :=
  @patch_frame [priorMovie] "tt0133093" priorMovie "fresh" (.str "7") 7 7
    (by decide) (by decide) (by decide) (by decide) (by decide) (by decide)

/-- C2 counterexample: an upsert colliding with a stored Record whose
myReview is "old", issued without a myReview in the request, succeeds
(201) yet leaves the prior myReview "old" in the stored Record — a field
of the prior Record survives through field-level merging, refuting the
wholesale-overwrite claim. -/
theorem collision_overwrite_counterexample :
    (postReviewById catMatrix [priorMovie] (some "tt0133093") (.str "5") none).status
      = 201 ∧
    ((postReviewById catMatrix [priorMovie] (some "tt0133093") (.str "5") none).store.map
      Movie.myReview) = [some "old"] := by
  decide

/-- C2 amended: a write whose key collides with a stored Record performs
a field-level set of exactly the fields present in the candidate object:
fields present — always including myScore — are overwritten, while
fields absent from the candidate (an omitted myReview, or a catalog
field missing from the response) retain their prior stored values. -/
theorem collision_update_is_field_level_set
    {cat : String → CatalogReply} {store : Store} {idStr : String}
    {myScore : JsVal} {review : Option String} {score : Int}
    {resp : CatalogResponse} {m : Movie}
    (hid : idStr ≠ "") (hp : myScore.parseInt10 = some score)
    (h0 : 0 ≤ score) (h10 : score ≤ 10) (hcat : cat idStr = .ok resp)
    (hT : resp.Response = some "True") (hkey : resp.imdbID = some idStr)
    (hfind : store.find? (fun x => x.imdbID == some idStr) = some m) :
    ∃ s2, postReviewById cat store (some idStr) myScore review =
        ⟨201, .upserted ⟨resp, score, review⟩, s2, true⟩ ∧
      s2.find? (fun x => x.imdbID == some idStr)
        = some (m.applySet (MovieData.toMovie ⟨resp, score, review⟩)) ∧
      (m.applySet (MovieData.toMovie ⟨resp, score, review⟩)).myScore
        = some (score : ℚ) ∧
      (review = none →
        (m.applySet (MovieData.toMovie ⟨resp, score, review⟩)).myReview = m.myReview) ∧
      (resp.BoxOffice = none →
        (m.applySet (MovieData.toMovie ⟨resp, score, review⟩)).BoxOffice
          = m.BoxOffice) := by
  rw [postReviewById_reduce hid hp h0 h10 hcat hT]
  have hid2 : (m.applySet (MovieData.toMovie ⟨resp, score, review⟩)).imdbID
      = some idStr := by
    simp [Movie.applySet, MovieData.toMovie, hkey, setField]
  obtain ⟨s2, hupd, hfind2, _, _⟩ := updateOneById_found hfind hid2
  refine ⟨s2, ?_, hfind2, ?_, ?_, ?_⟩
  · simp [upsertOutcome, findOneById, hfind, hupd]
  · simp [Movie.applySet, MovieData.toMovie, setField]
  · intro hr; simp [Movie.applySet, MovieData.toMovie, hr, setField]
  · intro hb; simp [Movie.applySet, MovieData.toMovie, hb, setField]

/-- Witness instantiating the amended C2 theorem on the concrete
colliding store. -/
theorem collision_update_is_field_level_set_witness :
    ∃ s2, postReviewById catMatrix [priorMovie] (some "tt0133093") (.num 5) none =
        ⟨201, .upserted ⟨respMatrix, 5, none⟩, s2, true⟩ ∧
      s2.find? (fun x => x.imdbID == some "tt0133093")
        = some (priorMovie.applySet (MovieData.toMovie ⟨respMatrix, 5, none⟩)) ∧
      (priorMovie.applySet (MovieData.toMovie ⟨respMatrix, 5, none⟩)).myScore
        = some ((5 : Int) : ℚ) ∧
      ((none : Option String) = none →
        (priorMovie.applySet (MovieData.toMovie ⟨respMatrix, 5, none⟩)).myReview
          = priorMovie.myReview) ∧
      (respMatrix.BoxOffice = none →
        (priorMovie.applySet (MovieData.toMovie ⟨respMatrix, 5, none⟩)).BoxOffice
          = priorMovie.BoxOffice) :=
  collision_update_is_field_level_set (by decide) (by decide) (by decide) (by decide)
    (by decide) (by decide) (by decide) (by decide)

/-- Catalog whose response for the caller key "ttY" carries the distinct
catalog-confirmed id "ttX". -/
def respMismatch : CatalogResponse := { respMatrix with imdbID := some "ttX" }

/-- Concrete by-id catalog answering "ttY" with the mismatching response. -/
def catMismatch : String → CatalogReply :=
  fun i => if i = "ttY" then .ok respMismatch else .fail

/-- Stored document already carrying the catalog-confirmed id "ttX". -/
def movieX : Movie := { imdbID := some "ttX" }

/-- C4 counterexample: with a stored Record under the catalog-confirmed
id "ttX" and a caller-supplied key "ttY", the by-id handler (which keys
its lookup by the caller-supplied id) answers 500 on the duplicate-key
insert, while the spec workflow keyed by the catalog-confirmed imdbID
would update the existing Record and answer 201 — so the by-id path is
not keyed by the catalog-confirmed id. -/
theorem byId_catalog_keying_counterexample :
    (postReviewById catMismatch [movieX] (some "ttY") (.num 5) none).status = 500 ∧
    (upsertOutcome [movieX] respMismatch.imdbID ⟨respMismatch, 5, none⟩).status = 201 ∧
    postReviewById catMismatch [movieX] (some "ttY") (.num 5) none ≠
      upsertOutcome [movieX] respMismatch.imdbID ⟨respMismatch, 5, none⟩ := by
  decide

/-- C4 amended: on a successful catalog fetch the by-title path keys its
existing-record lookup and write by the catalog-confirmed imdbID of the
response, but the by-id path keys them by the caller-supplied id. -/
theorem upsert_lookup_keying
    {cat : String → CatalogReply} {cat2 : String → Option String → CatalogReply}
    {store : Store} {idStr titleStr : String} {year : Option String}
    {myScore : JsVal} {review : Option String} {score : Int}
    {resp resp2 : CatalogResponse}
    (hid : idStr ≠ "") (htitle : titleStr ≠ "")
    (hp : myScore.parseInt10 = some score) (h0 : 0 ≤ score) (h10 : score ≤ 10)
    (hcat : cat idStr = .ok resp) (hT : resp.Response = some "True")
    (hcat2 : cat2 titleStr (if year.getD "" = "" then none else year) = .ok resp2)
    (hT2 : resp2.Response = some "True") :
    postReviewById cat store (some idStr) myScore review =
      upsertOutcome store (some idStr) ⟨resp, score, review⟩ ∧
    postReviewByTitle cat2 store (some titleStr) year myScore review =
      upsertOutcome store resp2.imdbID ⟨resp2, score, review⟩ :=
  ⟨postReviewById_reduce hid hp h0 h10 hcat hT,
    postReviewByTitle_reduce htitle hp h0 h10 hcat2 hT2⟩

/-- Witness instantiating the amended C4 theorem on the concrete catalog. -/
theorem upsert_lookup_keying_witness :
    postReviewById catMatrix [priorMovie] (some "tt0133093") (.num 5) (some "r") =
      upsertOutcome [priorMovie] (some "tt0133093") ⟨respMatrix, 5, some "r"⟩ ∧
    postReviewByTitle catMatrixT [priorMovie] (some "The Matrix") none (.num 5)
        (some "r") =
      upsertOutcome [priorMovie] respMatrix.imdbID ⟨respMatrix, 5, some "r"⟩ :=
  upsert_lookup_keying (by decide) (by decide) (by decide) (by decide) (by decide)
    (by decide) (by decide) (by decide) (by decide)

/-- C5: invoking upsert-by-id twice with identical valid inputs against
an unchanged catalog response yields exactly one stored Record for that
imdbID (no duplicate documents), and the store after the second
invocation equals the store after the first, so the stored Record is
field-for-field identical. -/
theorem upsertById_idempotent
    {cat : String → CatalogReply} {store : Store} {idStr : String}
    {myScore : JsVal} {review : Option String} {score : Int}
    {resp : CatalogResponse}
    (hid : idStr ≠ "") (hp : myScore.parseInt10 = some score)
    (h0 : 0 ≤ score) (h10 : score ≤ 10) (hcat : cat idStr = .ok resp)
    (hT : resp.Response = some "True") (hkey : resp.imdbID = some idStr)
    (huniq : uniqueIds store = true) :
    (postReviewById cat store (some idStr) myScore review).status = 201 ∧
    countId (postReviewById cat store (some idStr) myScore review).store idStr = 1 ∧
    (postReviewById cat (postReviewById cat store (some idStr) myScore review).store
        (some idStr) myScore review).status = 201 ∧
    (postReviewById cat (postReviewById cat store (some idStr) myScore review).store
        (some idStr) myScore review).store
      = (postReviewById cat store (some idStr) myScore review).store := by
  rw [postReviewById_reduce hid hp h0 h10 hcat hT]
  cases hfind : store.find? (fun x => x.imdbID == some idStr) with
  | none =>
      have hm : (MovieData.toMovie ⟨resp, score, review⟩).imdbID = some idStr := by
        simpa [MovieData.toMovie] using hkey
      obtain ⟨hins, hfind2, hcount⟩ := insertOne_fresh hfind hm
      have h1 : upsertOutcome store (some idStr) ⟨resp, score, review⟩ =
          ⟨201, .upserted ⟨resp, score, review⟩,
            store ++ [MovieData.toMovie ⟨resp, score, review⟩], true⟩ := by
        simp [upsertOutcome, findOneById, hfind, hins]
      rw [h1]
      have hz : countId store idStr = 0 := countP_eq_zero_of_find_none hfind
      have hid2 : ((MovieData.toMovie ⟨resp, score, review⟩).applySet
          (MovieData.toMovie ⟨resp, score, review⟩)).imdbID = some idStr := by
        rw [applySet_self]; exact hm
      obtain ⟨s2, hupd, _, _, hsame⟩ := updateOneById_found hfind2 hid2
      have hs2 : s2 = store ++ [MovieData.toMovie ⟨resp, score, review⟩] :=
        hsame (applySet_self _)
      rw [postReviewById_reduce hid hp h0 h10 hcat hT]
      have h2 : upsertOutcome (store ++ [MovieData.toMovie ⟨resp, score, review⟩])
          (some idStr) ⟨resp, score, review⟩ =
          ⟨201, .upserted ⟨resp, score, review⟩, s2, true⟩ := by
        simp [upsertOutcome, findOneById, hfind2, hupd]
      rw [h2]
      simp only [countId] at hz hcount ⊢
      exact ⟨trivial, by omega, trivial, hs2⟩
  | some m =>
      have hid2 : (m.applySet (MovieData.toMovie ⟨resp, score, review⟩)).imdbID
          = some idStr := by
        simp [Movie.applySet, MovieData.toMovie, hkey, setField]
      obtain ⟨s1, hupd1, hfind1, hcnt1, _⟩ := updateOneById_found hfind hid2
      have h1 : upsertOutcome store (some idStr) ⟨resp, score, review⟩ =
          ⟨201, .upserted ⟨resp, score, review⟩, s1, true⟩ := by
        simp [upsertOutcome, findOneById, hfind, hupd1]
      rw [h1]
      have hone : countId store idStr = 1 := countId_eq_one_of_unique huniq hfind
      have hid3 : ((m.applySet (MovieData.toMovie ⟨resp, score, review⟩)).applySet
          (MovieData.toMovie ⟨resp, score, review⟩)).imdbID = some idStr := by
        rw [applySet_applySet]; exact hid2
      obtain ⟨s2, hupd2, _, _, hsame2⟩ := updateOneById_found hfind1 hid3
      have hs2 : s2 = s1 := hsame2 (applySet_applySet _ _)
      rw [postReviewById_reduce hid hp h0 h10 hcat hT]
      have h2 : upsertOutcome s1 (some idStr) ⟨resp, score, review⟩ =
          ⟨201, .upserted ⟨resp, score, review⟩, s2, true⟩ := by
        simp [upsertOutcome, findOneById, hfind1, hupd2]
      rw [h2]
      exact ⟨rfl, by rw [hcnt1]; exact hone, rfl, hs2⟩

/-- Witness instantiating the C5 theorem on the empty store. -/
theorem upsertById_idempotent_witness :
    (postReviewById catMatrix [] (some "tt0133093") (.num 9) (some "S")).status = 201 ∧
    countId (postReviewById catMatrix [] (some "tt0133093") (.num 9)
        (some "S")).store "tt0133093" = 1 ∧
    (postReviewById catMatrix
        (postReviewById catMatrix [] (some "tt0133093") (.num 9) (some "S")).store
        (some "tt0133093") (.num 9) (some "S")).status = 201 ∧
    (postReviewById catMatrix
        (postReviewById catMatrix [] (some "tt0133093") (.num 9) (some "S")).store
        (some "tt0133093") (.num 9) (some "S")).store
      = (postReviewById catMatrix [] (some "tt0133093") (.num 9) (some "S")).store :=
  @upsertById_idempotent catMatrix [] "tt0133093" (.num 9) (some "S") 9 respMatrix
    (by decide) (by decide) (by decide) (by decide) (by decide) (by decide)
    (by decide) (by decide)

/-- C9: a successful upsert (by id or by title) answers 201 with a body
that is the spread object built from the entire raw catalog response with
myScore and myReview set on top — carrying every field the catalog
returned, including the Response flag and keys outside the stored schema
— and that body is never the schema-filtered document as persisted. -/
theorem upsert_returns_raw_spread
    {cat : String → CatalogReply} {cat2 : String → Option String → CatalogReply}
    {store : Store} {idStr titleStr j : String} {year : Option String}
    {myScore : JsVal} {review : Option String} {score : Int}
    {resp resp2 : CatalogResponse}
    (hid : idStr ≠ "") (htitle : titleStr ≠ "")
    (hp : myScore.parseInt10 = some score) (h0 : 0 ≤ score) (h10 : score ≤ 10)
    (hcat : cat idStr = .ok resp) (hT : resp.Response = some "True")
    (hkey : resp.imdbID = some idStr)
    (hcat2 : cat2 titleStr (if year.getD "" = "" then none else year) = .ok resp2)
    (hT2 : resp2.Response = some "True") (hkey2 : resp2.imdbID = some j) :
    ((postReviewById cat store (some idStr) myScore review).status = 201 ∧
      (postReviewById cat store (some idStr) myScore review).body
        = .upserted ⟨resp, score, review⟩) ∧
    ((postReviewByTitle cat2 store (some titleStr) year myScore review).status = 201 ∧
      (postReviewByTitle cat2 store (some titleStr) year myScore review).body
        = .upserted ⟨resp2, score, review⟩) ∧
    (∀ d : MovieData, Body.upserted d ≠ Body.record d.toMovie) := by
  obtain ⟨s2, h1⟩ := @upsertOutcome_success store idStr ⟨resp, score, review⟩ hkey
  obtain ⟨s3, h2⟩ := @upsertOutcome_success store j ⟨resp2, score, review⟩ hkey2
  rw [postReviewById_reduce hid hp h0 h10 hcat hT,
    postReviewByTitle_reduce htitle hp h0 h10 hcat2 hT2, h1, hkey2, h2]
  exact ⟨⟨rfl, rfl⟩, ⟨rfl, rfl⟩, fun d => by simp⟩

/-- Witness instantiating the C9 theorem on the spec example movie. -/
theorem upsert_returns_raw_spread_witness :
    ((postReviewById catMatrix [] (some "tt0133093") (.num 9) (some "S")).status = 201 ∧
      (postReviewById catMatrix [] (some "tt0133093") (.num 9) (some "S")).body
        = .upserted ⟨respMatrix, 9, some "S"⟩) ∧
    ((postReviewByTitle catMatrixT [] (some "The Matrix") none (.num 9)
        (some "S")).status = 201 ∧
      (postReviewByTitle catMatrixT [] (some "The Matrix") none (.num 9)
        (some "S")).body = .upserted ⟨respMatrix, 9, some "S"⟩) ∧
    (∀ d : MovieData, Body.upserted d ≠ Body.record d.toMovie) :=
  @upsert_returns_raw_spread catMatrix catMatrixT [] "tt0133093" "The Matrix"
    "tt0133093" none (.num 9) (some "S") 9 respMatrix respMatrix
    (by decide) (by decide) (by decide) (by decide) (by decide) (by decide)
    (by decide) (by decide) (by decide) (by decide) (by decide)

/-- C10: the PATCH handler validates myScore through parseInt but puts
the raw request value into the patch: the input "7.9" parses to the
in-range integer 7, yet the stored myScore becomes 7.9 — unlike the
upsert path, whose candidate carries the parsed integer 7. -/
theorem patch_stores_raw_score
    {store store2 : Store} {key idStr : String} {m : Movie}
    {cat : String → CatalogReply} {resp : CatalogResponse} {review : Option String}
    (hfind : store.find? (fun x => x.imdbID == some key) = some m)
    (hid : idStr ≠ "") (hcat : cat idStr = .ok resp)
    (hT : resp.Response = some "True") (hkey : resp.imdbID = some idStr) :
    (JsVal.str "7.9").parseInt10 = some 7 ∧
    mkRat 79 10 ≠ ((7 : Int) : ℚ) ∧
    (∃ s2, patchMovie store key (.str "7.9") none =
        ⟨200, .record (m.applySet { myScore := some (mkRat 79 10), myReview := none }),
          s2, false⟩ ∧
      (m.applySet { myScore := some (mkRat 79 10), myReview := none }).myScore
        = some (mkRat 79 10)) ∧
    (∃ s3, postReviewById cat store2 (some idStr) (.str "7.9") review =
        ⟨201, .upserted ⟨resp, 7, review⟩, s3, true⟩) := by
  refine ⟨by decide, by decide, ?_, ?_⟩
  · obtain ⟨s2, h1, _, _, _⟩ :=
      setFirstById_spec (u := { myScore := some (mkRat 79 10), myReview := none }) hfind
    refine ⟨s2, ?_, by simp [Movie.applySet, setField]⟩
    rw [patchMovie_score_reduce (n := 7) (by decide) (by decide) (by decide) (by decide)]
    have hcast : (JsVal.str "7.9").castNumber = some (mkRat 79 10) := by decide
    simp [findOneAndUpdateSet, hcast, h1]
  · obtain ⟨s3, h1⟩ :=
      @upsertOutcome_success store2 idStr ⟨resp, 7, review⟩ hkey
    rw [@postReviewById_reduce cat store2 idStr (.str "7.9") review 7 resp
      hid (by decide) (by decide) (by decide) hcat hT, h1]
    exact ⟨s3, rfl⟩

/-- Witness instantiating the C10 theorem on a one-document store. -/
theorem patch_stores_raw_score_witness :
    (JsVal.str "7.9").parseInt10 = some 7 ∧
    mkRat 79 10 ≠ ((7 : Int) : ℚ) ∧
    (∃ s2, patchMovie [priorMovie] "tt0133093" (.str "7.9") none =
        ⟨200, .record (priorMovie.applySet
            { myScore := some (mkRat 79 10), myReview := none }), s2, false⟩ ∧
      (priorMovie.applySet { myScore := some (mkRat 79 10), myReview := none }).myScore
        = some (mkRat 79 10)) ∧
    (∃ s3, postReviewById catMatrix [] (some "tt0133093") (.str "7.9") none =
        ⟨201, .upserted ⟨respMatrix, 7, none⟩, s3, true⟩) :=
  patch_stores_raw_score (by decide) (by decide) (by decide) (by decide) (by decide)
